import Mathlib

set_option maxRecDepth 8000

/-!
Verification of the cockpit web-service channel-multiplexing gateway
(`src/ws/test-webservice.c` and the design document).  The gateway
implementation itself (frame codec, control state machine, authentication
resolver, backend transport bridge) is exercised by the tests but its code is
not part of this tree, so those components are modelled from the spec; the
test harness helpers (`build_control_message`, the mock key constants, the
concrete frames sent by the tests) are embedded from the source.
-/

/-! ## Frame codec (spec 4.1, 6)

Modelled from the spec: each wire frame is
`<channel-number-in-decimal> \n <payload-bytes>`; decoding fails unless the
prefix is a valid non-negative decimal integer terminated by the newline.
Bytes are modelled as `Nat` (values 0..255). -/

/-- Modelled from the spec: decimal ASCII rendering of a channel number
(missing `cockpit_transport` serialisation side). -/
def natToDec (n : Nat) : List Nat :=
  if n = 0 then [48] else ((Nat.digits 10 n).map (fun d => d + 48)).reverse

/-- Modelled from the spec: encode a frame,
`<channel-number-in-decimal> '\n' <payload-bytes>`. -/
def buildFrame (ch : Nat) (payload : List Nat) : List Nat :=
  natToDec ch ++ 10 :: payload

/-- Modelled from the spec: the decoding loop of the frame codec
(missing `cockpit_transport_parse_frame`).  `acc` is the numeric value of the
digits consumed so far, `seen` whether at least one digit was consumed. -/
def parseFrameAux : List Nat → Nat → Bool → Option (Nat × List Nat)
  | [], _, _ => none
  | b :: rest, acc, seen =>
    if b = 10 then
      (if seen then some (acc, rest) else none)
    else if 48 ≤ b ∧ b ≤ 57 then
      parseFrameAux rest (acc * 10 + (b - 48)) true
    else
      none

/-- Modelled from the spec: decode a wire frame into (channel, payload), or
fail on a malformed prefix. -/
def parseFrame (bytes : List Nat) : Option (Nat × List Nat) :=
  parseFrameAux bytes 0 false

theorem parseFrameAux_digits (B : List Nat) :
    (∀ b ∈ B, 48 ≤ b ∧ b ≤ 57) →
    ∀ (p : List Nat) (acc : Nat) (seen : Bool), (B ≠ [] ∨ seen = true) →
      parseFrameAux (B ++ 10 :: p) acc seen =
        some (B.foldl (fun a b => a * 10 + (b - 48)) acc, p) := by
  induction B with
  | nil =>
    intro _ p acc seen hs
    rcases hs with h | h
    · exact absurd rfl h
    · subst h; simp [parseFrameAux]
  | cons b B ih =>
    intro h p acc seen _
    have hb := h b (by simp)
    have hb10 : ¬ (b = 10) := by omega
    have hdig : 48 ≤ b ∧ b ≤ 57 := hb
    simp only [List.cons_append, parseFrameAux, if_neg hb10, if_pos hdig,
      List.foldl_cons]
    exact ih (fun x hx => h x (by simp [hx])) p _ true (Or.inr rfl)

theorem foldl_rev_digits (L : List Nat) :
    ∀ acc : Nat, L.reverse.foldl (fun a d => a * 10 + d) acc =
      acc * 10 ^ L.length + Nat.ofDigits 10 L := by
  induction L with
  | nil => intro acc; simp [Nat.ofDigits]
  | cons d T ih =>
    intro acc
    simp only [List.reverse_cons, List.foldl_append, List.foldl_cons,
      List.foldl_nil, ih acc, Nat.ofDigits_cons, List.length_cons]
    ring

/-- Round trip of the frame codec: an encoded frame decodes to the same
channel number and the same payload bytes. -/
theorem parseFrame_buildFrame (ch : Nat) (p : List Nat) :
    parseFrame (buildFrame ch p) = some (ch, p) := by
  by_cases h0 : ch = 0
  · subst h0
    simp [parseFrame, buildFrame, natToDec, parseFrameAux]
  · have hdig : ∀ b ∈ natToDec ch, 48 ≤ b ∧ b ≤ 57 := by
      intro b hb
      simp only [natToDec, if_neg h0, List.mem_reverse, List.mem_map] at hb
      obtain ⟨d, hd, rfl⟩ := hb
      have := Nat.digits_lt_base (by norm_num) hd
      omega
    have hne : natToDec ch ≠ [] := by
      simp only [natToDec, if_neg h0]
      simp [Nat.digits_ne_nil_iff_ne_zero, h0]
    have := parseFrameAux_digits (natToDec ch) hdig p 0 false (Or.inl hne)
    rw [parseFrame, buildFrame, this]
    congr 1
    congr 1
    simp only [natToDec, if_neg h0]
    rw [← List.map_reverse, List.foldl_map]
    simp only [Nat.add_sub_cancel]
    rw [foldl_rev_digits]
    simp [Nat.ofDigits_digits]

/-! ## Control message JSON (source: `build_control_message`)

The test harness builds channel-0 payloads as a JSON object with the required
string member `command`, the integer member `channel` when non-zero, and
string-valued option members, then prepends the two bytes `"0\n"`.  The JSON
value model and renderer below stand in for the excluded JSON primitives. -/

inductive JVal
  | str (s : String)
  | int (n : Nat)
deriving DecidableEq, Repr

/-- String bytes (UTF-8 is the identity on the ASCII strings used here). -/
def strBytes (s : String) : List Nat :=
  s.data.map Char.toNat

/-- Render a JSON string literal (the strings involved need no escaping). -/
def jstrBytes (s : String) : List Nat :=
  34 :: (strBytes s ++ [34])

def JVal.render : JVal → List Nat
  | .str s => jstrBytes s
  | .int n => natToDec n

def renderPairs : List (String × JVal) → List Nat
  | [] => []
  | [(k, v)] => jstrBytes k ++ 58 :: v.render
  | (k, v) :: rest => jstrBytes k ++ 58 :: v.render ++ 44 :: renderPairs rest

/-- Render a JSON object (byte 123 is the opening brace, 125 the closing). -/
def renderObj (o : List (String × JVal)) : List Nat :=
  123 :: (renderPairs o ++ [125])

/-- The JSON object assembled by `build_control_message`: member `command`
first, then `channel` when the channel argument is non-zero, then each
(name, string-value) option pair in order. -/
def controlJson (command : String) (channel : Nat)
    (options : List (String × String)) : List (String × JVal) :=
  ("command", JVal.str command) ::
    ((if channel = 0 then [] else [("channel", JVal.int channel)]) ++
      options.map (fun kv => (kv.1, JVal.str kv.2)))

/-- Embedded from `build_control_message` in `src/src/ws/test-webservice.c`:
serialise the JSON object and prepend the two bytes `"0\n"` (48, 10). -/
def build_control_message (command : String) (channel : Nat)
    (options : List (String × String)) : List Nat :=
  48 :: 10 :: renderObj (controlJson command channel options)

/-- Lookup of a member in a JSON object (first match wins). -/
def jLookup : List (String × JVal) → String → Option JVal
  | [], _ => none
  | (k, v) :: rest, key => if k = key then some v else jLookup rest key

/-- Lookup of an option value in a control message's option list. -/
def optLookup : List (String × String) → String → Option String
  | [], _ => none
  | (k, v) :: rest, key => if k = key then some v else optLookup rest key

/-- The schema the spec gives for channel-0 payloads: a required string member
`command` that is "open" or "close", an optional integer member `channel`, and
string values for every other member. -/
def controlSchemaOK (o : List (String × JVal)) : Prop :=
  (∃ cmd, jLookup o "command" = some (JVal.str cmd) ∧
    (cmd = "open" ∨ cmd = "close")) ∧
  (∀ v, jLookup o "channel" = some v → ∃ n, v = JVal.int n) ∧
  (∀ k v, (k, v) ∈ o → k ≠ "command" → k ≠ "channel" → ∃ s, v = JVal.str s)

/-! ## Data model (spec 3)

Modelled from the spec: the gateway implementation (control state machine,
authentication resolver, backend transport bridge, host key verification) is
not part of this tree; the definitions below follow sections 3, 4.2, 4.3, 4.4
and 7 of the design document. -/

inductive ChannelState
  | PENDING_OPEN
  | OPEN
  | CLOSING
  | CLOSED
deriving DecidableEq, Repr

/-- Session Identity: resolved principal plus the secret material needed to
authenticate to a backend. -/
structure Identity where
  user : String
  password : String
deriving DecidableEq, Repr

/-- Host Key Record: key type plus key material; host and port are supplied
when forming the canonical string. -/
structure HostKey where
  keytype : String
  material : String
deriving DecidableEq, Repr

/-- The canonical known-hosts-format line for a presented key:
`[host]:port keytype key-base64` (spec 6). -/
def HostKey.canonical (host : String) (port : Nat) (k : HostKey) : String :=
  "[" ++ host ++ "]:" ++ toString port ++ " " ++ k.keytype ++ " " ++ k.material

/-- Registry entry for one channel: its lifecycle state and, when open, the
Session Identity it authenticated with. -/
structure ChanEntry where
  state : ChannelState
  ident : Option Identity
deriving DecidableEq, Repr

/-- Per-connection state: the mapping from channel id to channel. -/
structure Conn where
  channels : List (Nat × ChanEntry)
deriving DecidableEq, Repr

/-- A control message: command name, optional channel number, and option
name/value pairs. -/
structure ControlMsg where
  command : String
  channel : Option Nat
  options : List (String × String)
deriving DecidableEq, Repr

/-- Observable effects of one step of the gateway. -/
inductive Event
  | controlFrame (bytes : List Nat)
  | control (msg : ControlMsg)
  | toBackend (ch : Nat) (bytes : List Nat)
  | fatal
deriving DecidableEq, Repr

/-- The external collaborators of one connection: target host and port, the
known-hosts store contents, the live host key the backend presents, the
backend's credential check, whether the agent spawn succeeds, the fingerprint
derivation, and the cookie-resolved identity (none when the handshake carried
no valid session cookie). -/
structure Config where
  host : String
  port : Nat
  knownHosts : List ((String × Nat) × HostKey)
  liveKey : HostKey
  backendAccepts : Identity → Bool
  spawnOk : Bool
  fingerprint : HostKey → String
  cookieIdentity : Option Identity

/-- Lookup of (host, port) in the known-hosts store. -/
def knownLookup : List ((String × Nat) × HostKey) → String → Nat → Option HostKey
  | [], _, _ => none
  | (hp, k) :: rest, host, port =>
    if hp = (host, port) then some k else knownLookup rest host port

/-- Lookup of a channel id in the registry. -/
def chanLookup : List (Nat × ChanEntry) → Nat → Option ChanEntry
  | [], _ => none
  | (c, e) :: rest, ch => if c = ch then some e else chanLookup rest ch

def Conn.chanState (conn : Conn) (ch : Nat) : Option ChannelState :=
  (chanLookup conn.channels ch).map ChanEntry.state

def Conn.isOpen (conn : Conn) (ch : Nat) : Bool :=
  decide (conn.chanState ch = some ChannelState.OPEN)

/-! ## Authentication resolver (spec 4.3) -/

/-- Modelled from the spec: inline `user`/`password` options take precedence;
otherwise the cookie-resolved identity is used; `none` means the connection's
identity could not be established (`no-session`). -/
def resolveIdentity (cfg : Config) (options : List (String × String)) :
    Option Identity :=
  match optLookup options "user", optLookup options "password" with
  | some u, some p => some ⟨u, p⟩
  | _, _ => cfg.cookieIdentity

/-! ## Host key verification (spec 4.4) -/

/-- Modelled from the spec: with a `host-key` override, trust iff the live
key's canonical string equals the override byte-for-byte; without one, trust
iff the known-hosts store maps (host, port) to exactly the live key. -/
def hostTrusted (cfg : Config) (override : Option String) : Bool :=
  match override with
  | some s => decide (s = HostKey.canonical cfg.host cfg.port cfg.liveKey)
  | none =>
    match knownLookup cfg.knownHosts cfg.host cfg.port with
    | some k => decide (k = cfg.liveKey)
    | none => false

/-! ## Control state machine (spec 4.2, 4.4, 7) -/

/-- A `close` control message with a `reason` option and further options. -/
def closeMsg (ch : Nat) (reason : String) (extra : List (String × String)) :
    ControlMsg :=
  ⟨"close", some ch, ("reason", reason) :: extra⟩

/-- The `unknown-hostkey` close message: carries the exact known-hosts-format
line for the presented key and that key's fingerprint. -/
def unknownHostkeyMsg (cfg : Config) (ch : Nat) : ControlMsg :=
  closeMsg ch "unknown-hostkey"
    [("host-key", HostKey.canonical cfg.host cfg.port cfg.liveKey),
     ("host-fingerprint", cfg.fingerprint cfg.liveKey)]

/-- Modelled from the spec: handling of an `open` control message.  A reserved
or already-registered channel id is a fatal protocol violation; then identity
resolution (`no-session` terminates the connection), host key verification
(`unknown-hostkey`), backend authentication (`not-authorized`) and agent spawn
(`no-agent`) run in that order, any failure registering the channel CLOSED and
emitting the close message; on success the channel is registered OPEN and an
`open` control message carrying the channel's options is sent back. -/
def handleOpen (cfg : Config) (conn : Conn) (ch : Nat)
    (options : List (String × String)) : Conn × List Event :=
  if ch = 0 ∨ (chanLookup conn.channels ch).isSome then
    (conn, [Event.fatal])
  else
    match resolveIdentity cfg options with
    | none =>
      (⟨(ch, ⟨ChannelState.CLOSED, none⟩) :: conn.channels⟩,
       [Event.control (closeMsg ch "no-session" []), Event.fatal])
    | some idn =>
      if hostTrusted cfg (optLookup options "host-key") then
        if cfg.backendAccepts idn then
          if cfg.spawnOk then
            (⟨(ch, ⟨ChannelState.OPEN, some idn⟩) :: conn.channels⟩,
             [Event.control ⟨"open", some ch, options⟩])
          else
            (⟨(ch, ⟨ChannelState.CLOSED, none⟩) :: conn.channels⟩,
             [Event.control (closeMsg ch "no-agent" [])])
        else
          (⟨(ch, ⟨ChannelState.CLOSED, none⟩) :: conn.channels⟩,
           [Event.control (closeMsg ch "not-authorized" [])])
      else
        (⟨(ch, ⟨ChannelState.CLOSED, none⟩) :: conn.channels⟩,
         [Event.control (unknownHostkeyMsg cfg ch)])

/-! ## Multiplexer routing and the relay loop (spec 4.1, 4.4 step 6) -/

/-- Modelled from the spec: route one decoded inbound frame.  A malformed
frame is connection-fatal; channel 0 goes to the control machine; data for an
OPEN channel goes to its backend; data for any other channel is dropped. -/
def routeFrame (conn : Conn) (bytes : List Nat) : List Event :=
  match parseFrame bytes with
  | none => [Event.fatal]
  | some (ch, payload) =>
    if ch = 0 then [Event.controlFrame payload]
    else if conn.isOpen ch then [Event.toBackend ch payload]
    else []

/-- The mock echo backend: agent output equals agent input. -/
def echoBackend (input : List Nat) : List Nat := input

/-- Modelled from the spec: bytes read from the agent's output are wrapped as
a data frame for the owning channel. -/
def outboundData (ch : Nat) (bytes : List Nat) : List Nat :=
  buildFrame ch bytes

/-- Mark one channel CLOSED in the registry, leaving the rest untouched. -/
def setClosed : List (Nat × ChanEntry) → Nat → List (Nat × ChanEntry)
  | [], _ => []
  | (c, e) :: rest, ch =>
    if c = ch then (c, ⟨ChannelState.CLOSED, none⟩) :: rest
    else (c, e) :: setClosed rest ch

/-- Modelled from the spec: abrupt termination of the backend of an OPEN
channel moves that channel to CLOSED and emits a `close` with reason
`terminated`; for any other channel it is a no-op. -/
def backendTerminated (conn : Conn) (ch : Nat) : Conn × List Event :=
  if conn.isOpen ch then
    (⟨setClosed conn.channels ch⟩, [Event.control (closeMsg ch "terminated" [])])
  else
    (conn, [])

/-! ## Concrete fixtures used by the witnesses

These mirror the values the tests use: channel 4, payload "the message"
(`test_handshake_and_echo`), a 100000-byte payload of byte 63, i.e. the
character the test fills with (`test_echo_large`), and the mock RSA key and
fingerprint constants (`MOCK_RSA_KEY`, `MOCK_RSA_FP`). -/

def connW : Conn :=
  ⟨[(4, ⟨ChannelState.OPEN, some ⟨"user", "this is the password"⟩⟩)]⟩

def smallMsg : List Nat := strBytes "the message"

def bigMsg : List Nat := List.replicate 100000 63

/-- C1 helper fact shape is generic, no fixture needed beyond `connW`. -/
theorem routeFrame_open_data (conn : Conn) (ch : Nat) (p : List Nat)
    (hch : ch ≠ 0) (hopen : conn.isOpen ch = true) :
    routeFrame conn (buildFrame ch p) = [Event.toBackend ch p] := by
  rw [routeFrame, parseFrame_buildFrame]
  simp [hch, hopen]

/-- C1: a data frame sent on an OPEN channel 4 with any payload `p` is relayed
to the backend, and with an echoing backend the bytes coming back are wrapped
into a frame with the same channel and the same payload, byte-for-byte equal
to the frame that was sent. -/
theorem echo_relay (conn : Conn) (p : List Nat)
    (hopen : conn.isOpen 4 = true) :
    routeFrame conn (buildFrame 4 p) = [Event.toBackend 4 p] ∧
    outboundData 4 (echoBackend p) = buildFrame 4 p :=
  ⟨routeFrame_open_data conn 4 p (by norm_num) hopen, rfl⟩

/-- Witness for C1: a connection with channel 4 OPEN, checked at the
13-byte test payload and at a 100000-byte payload. -/
theorem echo_relay_witness :
    connW.isOpen 4 = true ∧ 100000 ≤ bigMsg.length ∧
    (routeFrame connW (buildFrame 4 smallMsg) = [Event.toBackend 4 smallMsg] ∧
      outboundData 4 (echoBackend smallMsg) = buildFrame 4 smallMsg) ∧
    (routeFrame connW (buildFrame 4 bigMsg) = [Event.toBackend 4 bigMsg] ∧
      outboundData 4 (echoBackend bigMsg) = buildFrame 4 bigMsg) :=
  ⟨by decide, by rw [bigMsg, List.length_replicate],
   echo_relay connW smallMsg (by decide),
   echo_relay connW bigMsg (by decide)⟩

/-! ## C9 helpers -/

theorem jLookup_map_str (options : List (String × String)) (k : String) :
    jLookup (options.map (fun kv => (kv.1, JVal.str kv.2))) k =
      (optLookup options k).map JVal.str := by
  induction options with
  | nil => rfl
  | cons kv rest ih =>
    simp only [List.map_cons, jLookup, optLookup]
    by_cases h : kv.1 = k
    · simp [h]
    · simp [h, ih]

theorem optLookup_none (options : List (String × String)) (k : String)
    (h : ∀ kv ∈ options, kv.1 ≠ k) : optLookup options k = none := by
  induction options with
  | nil => rfl
  | cons kv rest ih =>
    simp only [optLookup]
    rw [if_neg (h kv (by simp))]
    exact ih (fun x hx => h x (by simp [hx]))

/-- C9: every wire frame is the ASCII decimal channel number, one newline
byte, then the payload; a control message built for channel 0 parses back to
channel 0 with the serialised JSON object as payload, that object satisfies
the control schema (required string `command` in open/close, optional integer
`channel`, string-valued options), and a frame with a positive channel number
carries its payload bytes opaquely. -/
theorem wire_frame_format (command : String) (channel : Nat)
    (options : List (String × String))
    (hcmd : command = "open" ∨ command = "close")
    (hkeys : ∀ kv ∈ options, kv.1 ≠ "command" ∧ kv.1 ≠ "channel") :
    parseFrame (build_control_message command channel options) =
      some (0, renderObj (controlJson command channel options)) ∧
    controlSchemaOK (controlJson command channel options) ∧
    (∀ (c : Nat) (p : List Nat), 0 < c →
      parseFrame (buildFrame c p) = some (c, p)) := by
  refine ⟨rfl, ⟨⟨command, ?_, hcmd⟩, ?_, ?_⟩,
    fun c p _ => parseFrame_buildFrame c p⟩
  · simp [controlJson, jLookup]
  · intro v hv
    have hv2 : jLookup ((if channel = 0 then [] else
        [("channel", JVal.int channel)]) ++
        options.map (fun kv => (kv.1, JVal.str kv.2))) "channel" = some v := hv
    by_cases hc : channel = 0
    · rw [if_pos hc, List.nil_append, jLookup_map_str,
        optLookup_none options "channel" (fun kv hkv => (hkeys kv hkv).2)] at hv2
      simp at hv2
    · rw [if_neg hc] at hv2
      simp only [List.cons_append, List.nil_append, jLookup, if_true] at hv2
      exact ⟨channel, (Option.some_inj.mp hv2).symm⟩
  · intro k v hkv hk1 hk2
    simp only [controlJson, List.mem_cons, List.mem_append, List.mem_map] at hkv
    rcases hkv with h | h | h
    · exact absurd (congrArg Prod.fst h) hk1
    · by_cases hc : channel = 0
      · rw [if_pos hc] at h; simp at h
      · rw [if_neg hc] at h
        simp only [List.mem_singleton] at h
        exact absurd (congrArg Prod.fst h) hk2
    · obtain ⟨kv0, _, hkv0⟩ := h
      exact ⟨kv0.2, (congrArg Prod.snd hkv0).symm⟩

/-- Witness for C9: the open message the tests send on channel 4 with the
`payload` option. -/
theorem wire_frame_format_witness :
    parseFrame (build_control_message "open" 4 [("payload", "test-text")]) =
      some (0, renderObj (controlJson "open" 4 [("payload", "test-text")])) ∧
    controlSchemaOK (controlJson "open" 4 [("payload", "test-text")]) ∧
    (∀ (c : Nat) (p : List Nat), 0 < c →
      parseFrame (buildFrame c p) = some (c, p)) :=
  wire_frame_format "open" 4 [("payload", "test-text")] (Or.inl rfl) (by decide)

/-! ## Registry helper lemmas -/

theorem chanState_cons (ch c : Nat) (e : ChanEntry) (l : List (Nat × ChanEntry)) :
    Conn.chanState ⟨(ch, e) :: l⟩ c =
      if ch = c then some e.state else Conn.chanState ⟨l⟩ c := by
  by_cases h : ch = c <;> simp [Conn.chanState, chanLookup, h]

theorem chanLookup_setClosed_ne (l : List (Nat × ChanEntry)) (ch c : Nat)
    (h : c ≠ ch) : chanLookup (setClosed l ch) c = chanLookup l c := by
  induction l with
  | nil => rfl
  | cons kv rest ih =>
    obtain ⟨k, e⟩ := kv
    by_cases hk : k = ch
    · subst hk
      have hkc : ¬ (k = c) := fun hh => h (hh ▸ rfl)
      simp [setClosed, chanLookup, hkc]
    · by_cases hkc : k = c
      · simp [setClosed, chanLookup, hk, hkc, h]
      · simp [setClosed, chanLookup, hk, hkc, ih]

theorem chanLookup_setClosed_self (l : List (Nat × ChanEntry)) (ch : Nat)
    (e : ChanEntry) (h : chanLookup l ch = some e) :
    chanLookup (setClosed l ch) ch = some ⟨ChannelState.CLOSED, none⟩ := by
  induction l with
  | nil => simp [chanLookup] at h
  | cons kv rest ih =>
    obtain ⟨k, e0⟩ := kv
    by_cases hk : k = ch
    · simp [setClosed, chanLookup, hk]
    · simp only [chanLookup, if_neg hk] at h
      simp [setClosed, chanLookup, hk, ih h]

/-! ## Witness fixtures for the gateway claims

`mockMaterial`/`mockFP` are the `MOCK_RSA_KEY` and `MOCK_RSA_FP` constants of
the test file; the configurations mirror the test setups (an empty
known-hosts store for the host-key tests, a missing cookie for the
unauthenticated test, the `user`/`Another password` backend of
`setup_for_socket_spec`, a failing spawn for the no-agent test). -/

def mockMaterial : String :=
  "AAAAB3NzaC1yc2EAAAADAQABAAABAQCYzo07OA0H6f7orVun9nIVjGYrkf8AuPDScqWGzlKpAqSipoQ9oY/mwONwIOu4uhKh7FTQCq5p+NaOJ6+Q4z++xBzSOLFseKX+zyLxgNG28jnF06WSmrMsSfvPdNuZKt9rZcQFKn9fRNa8oixa+RsqEEVEvTYhGtRf7w2wsV49xIoIza/bln1ABX1YLaCByZow+dK3ZlHn/UU0r4ewpAIZhve4vCvAsMe5+6KJH8ft/OKXXQY06h6jCythLV4h18gY/sYosOa+/4XgpmBiE7fDeFRKVjP3mvkxMpxce+ckOFae2+aJu51h513S9kxY2PmKaV/JU9HBYO+yO4j+j24v"

def mockKey : HostKey := ⟨"ssh-rsa", mockMaterial⟩

def mockFP : String := "0e:6a:c8:b1:07:72:e2:04:95:9f:0e:b3:56:af:48:e2"

def knownW : List ((String × Nat) × HostKey) := [(("127.0.0.1", 22), mockKey)]

def connEmpty : Conn := ⟨[]⟩

def cfgUnknown : Config :=
  ⟨"127.0.0.1", 22, [], mockKey, fun _ => true, true, fun _ => mockFP,
   some ⟨"user", "this is the password"⟩⟩

def cfgNoSession : Config :=
  ⟨"127.0.0.1", 22, knownW, mockKey, fun _ => true, true, fun _ => mockFP,
   none⟩

/-- C2: when no override is supplied and the presented host key is absent
from (or differs from) the known-hosts store, the open aborts with a close
whose reason is `unknown-hostkey`, whose `host-key` option is the exact
known-hosts-format line for the presented key and whose `host-fingerprint`
option is the fingerprint of that presented key, and the channel goes
straight to CLOSED, never reaching OPEN and never exchanging data. -/
theorem unknown_hostkey_close (cfg : Config) (conn : Conn) (ch : Nat)
    (options : List (String × String)) (idn : Identity)
    (hch : ch ≠ 0) (hreg : chanLookup conn.channels ch = none)
    (hid : resolveIdentity cfg options = some idn)
    (hnoov : optLookup options "host-key" = none)
    (hmiss : ∀ k, knownLookup cfg.knownHosts cfg.host cfg.port = some k →
      k ≠ cfg.liveKey) :
    handleOpen cfg conn ch options =
      (⟨(ch, ⟨ChannelState.CLOSED, none⟩) :: conn.channels⟩,
       [Event.control (closeMsg ch "unknown-hostkey"
          [("host-key", HostKey.canonical cfg.host cfg.port cfg.liveKey),
           ("host-fingerprint", cfg.fingerprint cfg.liveKey)])]) ∧
    (handleOpen cfg conn ch options).1.chanState ch =
      some ChannelState.CLOSED ∧
    (∀ e ∈ (handleOpen cfg conn ch options).2, ∀ c b,
      e ≠ Event.toBackend c b) := by
  have htr : hostTrusted cfg (optLookup options "host-key") = false := by
    rw [hnoov]
    unfold hostTrusted
    cases hk : knownLookup cfg.knownHosts cfg.host cfg.port with
    | none => rfl
    | some k => simp [hmiss k hk]
  have h1 : handleOpen cfg conn ch options =
      (⟨(ch, ⟨ChannelState.CLOSED, none⟩) :: conn.channels⟩,
       [Event.control (closeMsg ch "unknown-hostkey"
          [("host-key", HostKey.canonical cfg.host cfg.port cfg.liveKey),
           ("host-fingerprint", cfg.fingerprint cfg.liveKey)])]) := by
    unfold handleOpen
    rw [if_neg (by simp [hch, hreg]), hid]
    simp [htr, unknownHostkeyMsg]
  refine ⟨h1, ?_, ?_⟩
  · rw [h1]
    simp [Conn.chanState, chanLookup]
  · rw [h1]
    intro e he c b
    simp only [List.mem_singleton] at he
    subst he
    intro hcontra
    exact Event.noConfusion hcontra

/-- Witness for C2: the mock RSA key presented against an empty known-hosts
store, as in `test_unknown_host_key`. -/
theorem unknown_hostkey_close_witness :
    handleOpen cfgUnknown connEmpty 4 [("payload", "test-text")] =
      (⟨(4, ⟨ChannelState.CLOSED, none⟩) :: connEmpty.channels⟩,
       [Event.control (closeMsg 4 "unknown-hostkey"
          [("host-key",
            HostKey.canonical cfgUnknown.host cfgUnknown.port cfgUnknown.liveKey),
           ("host-fingerprint", cfgUnknown.fingerprint cfgUnknown.liveKey)])]) ∧
    (handleOpen cfgUnknown connEmpty 4 [("payload", "test-text")]).1.chanState 4 =
      some ChannelState.CLOSED ∧
    (∀ e ∈ (handleOpen cfgUnknown connEmpty 4 [("payload", "test-text")]).2,
      ∀ c b, e ≠ Event.toBackend c b) :=
  unknown_hostkey_close cfgUnknown connEmpty 4 [("payload", "test-text")]
    ⟨"user", "this is the password"⟩ (by decide) rfl rfl rfl
    (fun k h => Option.noConfusion h)

/-- C3: an `open` whose `host-key` override equals the live host key's
canonical string byte-for-byte is trusted and reaches OPEN, even though the
known-hosts store has no entry for the host. -/
theorem hostkey_override_open (cfg : Config) (conn : Conn) (ch : Nat)
    (options : List (String × String)) (idn : Identity)
    (hch : ch ≠ 0) (hreg : chanLookup conn.channels ch = none)
    (hid : resolveIdentity cfg options = some idn)
    (hov : optLookup options "host-key" =
      some (HostKey.canonical cfg.host cfg.port cfg.liveKey))
    (hkh : knownLookup cfg.knownHosts cfg.host cfg.port = none)
    (hauth : cfg.backendAccepts idn = true) (hspawn : cfg.spawnOk = true) :
    handleOpen cfg conn ch options =
      (⟨(ch, ⟨ChannelState.OPEN, some idn⟩) :: conn.channels⟩,
       [Event.control ⟨"open", some ch, options⟩]) ∧
    (handleOpen cfg conn ch options).1.isOpen ch = true := by
  have htr : hostTrusted cfg (optLookup options "host-key") = true := by
    rw [hov]
    unfold hostTrusted
    simp
  have h1 : handleOpen cfg conn ch options =
      (⟨(ch, ⟨ChannelState.OPEN, some idn⟩) :: conn.channels⟩,
       [Event.control ⟨"open", some ch, options⟩]) := by
    unfold handleOpen
    rw [if_neg (by simp [hch, hreg]), hid]
    simp [htr, hauth, hspawn]
  refine ⟨h1, ?_⟩
  rw [h1]
  simp [Conn.isOpen, Conn.chanState, chanLookup]

/-- Witness for C3: re-opening with the mock key's canonical line as the
override against an empty known-hosts store, as in `test_expect_host_key`. -/
theorem hostkey_override_open_witness :
    handleOpen cfgUnknown connEmpty 4
      [("payload", "test-text"),
       ("host-key", HostKey.canonical cfgUnknown.host cfgUnknown.port cfgUnknown.liveKey)] =
      (⟨(4, ⟨ChannelState.OPEN, some ⟨"user", "this is the password"⟩⟩) ::
          connEmpty.channels⟩,
       [Event.control ⟨"open", some 4,
          [("payload", "test-text"),
           ("host-key", HostKey.canonical cfgUnknown.host cfgUnknown.port cfgUnknown.liveKey)]⟩]) ∧
    (handleOpen cfgUnknown connEmpty 4
      [("payload", "test-text"),
       ("host-key", HostKey.canonical cfgUnknown.host cfgUnknown.port cfgUnknown.liveKey)]).1.isOpen 4 = true :=
  hostkey_override_open cfgUnknown connEmpty 4
    [("payload", "test-text"),
     ("host-key", HostKey.canonical cfgUnknown.host cfgUnknown.port cfgUnknown.liveKey)]
    ⟨"user", "this is the password"⟩ (by decide) rfl rfl rfl rfl rfl rfl

/-- C4: a connection whose handshake carried no valid session cookie and
whose open carries no inline credentials terminates with a close of reason
`no-session`, and no channel of the connection ever reaches OPEN. -/
theorem no_session_close (cfg : Config) (conn : Conn) (ch : Nat)
    (options : List (String × String))
    (hch : ch ≠ 0) (hreg : chanLookup conn.channels ch = none)
    (hcookie : cfg.cookieIdentity = none)
    (huser : optLookup options "user" = none)
    (hnone : ∀ c, conn.chanState c ≠ some ChannelState.OPEN) :
    handleOpen cfg conn ch options =
      (⟨(ch, ⟨ChannelState.CLOSED, none⟩) :: conn.channels⟩,
       [Event.control (closeMsg ch "no-session" []), Event.fatal]) ∧
    Event.fatal ∈ (handleOpen cfg conn ch options).2 ∧
    (∀ c, (handleOpen cfg conn ch options).1.chanState c ≠
      some ChannelState.OPEN) := by
  have hid : resolveIdentity cfg options = none := by
    unfold resolveIdentity
    rw [huser, hcookie]
  have h1 : handleOpen cfg conn ch options =
      (⟨(ch, ⟨ChannelState.CLOSED, none⟩) :: conn.channels⟩,
       [Event.control (closeMsg ch "no-session" []), Event.fatal]) := by
    unfold handleOpen
    rw [if_neg (by simp [hch, hreg]), hid]
  refine ⟨h1, ?_, ?_⟩
  · rw [h1]; simp
  · intro c
    rw [h1, chanState_cons]
    by_cases h : ch = c
    · simp [h]
    · simp only [if_neg h]
      exact hnone c

/-- Witness for C4: no cookie identity, no inline credentials, fresh
connection, as in `test_socket_unauthenticated`. -/
theorem no_session_close_witness :
    handleOpen cfgNoSession connEmpty 4 [("payload", "test-text")] =
      (⟨(4, ⟨ChannelState.CLOSED, none⟩) :: connEmpty.channels⟩,
       [Event.control (closeMsg 4 "no-session" []), Event.fatal]) ∧
    Event.fatal ∈ (handleOpen cfgNoSession connEmpty 4 [("payload", "test-text")]).2 ∧
    (∀ c, (handleOpen cfgNoSession connEmpty 4 [("payload", "test-text")]).1.chanState c ≠
      some ChannelState.OPEN) :=
  no_session_close cfgNoSession connEmpty 4 [("payload", "test-text")]
    (by decide) rfl rfl rfl
    (fun c => by simp [connEmpty, Conn.chanState, chanLookup])

def cfgCreds : Config :=
  ⟨"127.0.0.1", 22, knownW, mockKey,
   fun i => decide (i = ⟨"user", "Another password"⟩), true,
   fun _ => mockFP, some ⟨"admin", "this is the password"⟩⟩

def cfgSpawnFail : Config :=
  ⟨"127.0.0.1", 22, knownW, mockKey, fun _ => true, false, fun _ => mockFP,
   some ⟨"user", "this is the password"⟩⟩

def cfgOk : Config :=
  ⟨"127.0.0.1", 22, knownW, mockKey, fun _ => true, true, fun _ => mockFP,
   some ⟨"user", "this is the password"⟩⟩

def connOther : Conn :=
  ⟨[(7, ⟨ChannelState.OPEN, some ⟨"admin", "this is the password"⟩⟩)]⟩

def connTwo : Conn :=
  ⟨[(4, ⟨ChannelState.OPEN, some ⟨"user", "this is the password"⟩⟩),
    (7, ⟨ChannelState.OPEN, some ⟨"user", "this is the password"⟩⟩)]⟩

/-- C5: an open with inline `user`/`password` that the backend rejects closes
that one channel with reason `not-authorized`; the connection is not
terminated and every other channel's state is untouched. -/
theorem inline_creds_fail_close (cfg : Config) (conn : Conn) (ch : Nat)
    (options : List (String × String)) (u p : String)
    (hch : ch ≠ 0) (hreg : chanLookup conn.channels ch = none)
    (huser : optLookup options "user" = some u)
    (hpass : optLookup options "password" = some p)
    (htr : hostTrusted cfg (optLookup options "host-key") = true)
    (hauth : cfg.backendAccepts ⟨u, p⟩ = false) :
    handleOpen cfg conn ch options =
      (⟨(ch, ⟨ChannelState.CLOSED, none⟩) :: conn.channels⟩,
       [Event.control (closeMsg ch "not-authorized" [])]) ∧
    Event.fatal ∉ (handleOpen cfg conn ch options).2 ∧
    (∀ c, c ≠ ch → (handleOpen cfg conn ch options).1.chanState c =
      conn.chanState c) := by
  have hid : resolveIdentity cfg options = some ⟨u, p⟩ := by
    unfold resolveIdentity
    rw [huser, hpass]
  have h1 : handleOpen cfg conn ch options =
      (⟨(ch, ⟨ChannelState.CLOSED, none⟩) :: conn.channels⟩,
       [Event.control (closeMsg ch "not-authorized" [])]) := by
    unfold handleOpen
    rw [if_neg (by simp [hch, hreg]), hid]
    simp [htr, hauth]
  refine ⟨h1, ?_, ?_⟩
  · rw [h1]; simp
  · intro c hc
    rw [h1, chanState_cons, if_neg (fun hh => hc hh.symm)]

/-- Witness for C5: wrong inline password while channel 7 is open under the
session identity, as in `test_specified_creds_fail`. -/
theorem inline_creds_fail_close_witness :
    (handleOpen cfgCreds connOther 4
      [("payload", "test-text"), ("user", "user"), ("password", "Wrong password")] =
      (⟨(4, ⟨ChannelState.CLOSED, none⟩) :: connOther.channels⟩,
       [Event.control (closeMsg 4 "not-authorized" [])]) ∧
    Event.fatal ∉ (handleOpen cfgCreds connOther 4
      [("payload", "test-text"), ("user", "user"), ("password", "Wrong password")]).2 ∧
    (∀ c, c ≠ 4 → (handleOpen cfgCreds connOther 4
      [("payload", "test-text"), ("user", "user"), ("password", "Wrong password")]).1.chanState c =
      connOther.chanState c)) ∧
    connOther.chanState 7 = some ChannelState.OPEN :=
  ⟨inline_creds_fail_close cfgCreds connOther 4
    [("payload", "test-text"), ("user", "user"), ("password", "Wrong password")]
    "user" "Wrong password" (by decide) rfl rfl rfl rfl rfl,
   rfl⟩

/-- C6: inline `user`/`password` options are the identity checked against the
backend and take precedence over the cookie-resolved identity: the channel is
registered OPEN under the inline identity and then relays data frames. -/
theorem inline_creds_precedence (cfg : Config) (conn : Conn) (ch : Nat)
    (options : List (String × String)) (u p : String) (cid : Identity)
    (hch : ch ≠ 0) (hreg : chanLookup conn.channels ch = none)
    (huser : optLookup options "user" = some u)
    (hpass : optLookup options "password" = some p)
    (hcookie : cfg.cookieIdentity = some cid)
    (htr : hostTrusted cfg (optLookup options "host-key") = true)
    (hauth : cfg.backendAccepts ⟨u, p⟩ = true)
    (hspawn : cfg.spawnOk = true) :
    resolveIdentity cfg options = some ⟨u, p⟩ ∧
    handleOpen cfg conn ch options =
      (⟨(ch, ⟨ChannelState.OPEN, some ⟨u, p⟩⟩) :: conn.channels⟩,
       [Event.control ⟨"open", some ch, options⟩]) ∧
    (∀ q, routeFrame (handleOpen cfg conn ch options).1 (buildFrame ch q) =
      [Event.toBackend ch q]) := by
  have hid : resolveIdentity cfg options = some ⟨u, p⟩ := by
    unfold resolveIdentity
    rw [huser, hpass]
  have h1 : handleOpen cfg conn ch options =
      (⟨(ch, ⟨ChannelState.OPEN, some ⟨u, p⟩⟩) :: conn.channels⟩,
       [Event.control ⟨"open", some ch, options⟩]) := by
    unfold handleOpen
    rw [if_neg (by simp [hch, hreg]), hid]
    simp [htr, hauth, hspawn]
  refine ⟨hid, h1, ?_⟩
  intro q
  rw [h1]
  exact routeFrame_open_data _ ch q hch
    (by simp [Conn.isOpen, Conn.chanState, chanLookup])

/-- Witness for C6: the inline identity `user`/`Another password` of
`test_specified_creds` is accepted by the backend although it differs from
the cookie-resolved identity (which the backend would reject). -/
theorem inline_creds_precedence_witness :
    (resolveIdentity cfgCreds
      [("payload", "test-text"), ("user", "user"), ("password", "Another password")] =
      some ⟨"user", "Another password"⟩ ∧
    handleOpen cfgCreds connEmpty 4
      [("payload", "test-text"), ("user", "user"), ("password", "Another password")] =
      (⟨(4, ⟨ChannelState.OPEN, some ⟨"user", "Another password"⟩⟩) ::
          connEmpty.channels⟩,
       [Event.control ⟨"open", some 4,
          [("payload", "test-text"), ("user", "user"),
           ("password", "Another password")]⟩]) ∧
    (∀ q, routeFrame (handleOpen cfgCreds connEmpty 4
        [("payload", "test-text"), ("user", "user"),
         ("password", "Another password")]).1 (buildFrame 4 q) =
      [Event.toBackend 4 q])) ∧
    (⟨"user", "Another password"⟩ : Identity) ≠ ⟨"admin", "this is the password"⟩ ∧
    cfgCreds.backendAccepts ⟨"admin", "this is the password"⟩ = false :=
  ⟨inline_creds_precedence cfgCreds connEmpty 4
    [("payload", "test-text"), ("user", "user"), ("password", "Another password")]
    "user" "Another password" ⟨"admin", "this is the password"⟩
    (by decide) rfl rfl rfl rfl rfl rfl rfl,
   by decide, by decide⟩

/-- C7: when spawning the backend agent fails, the channel closes with reason
`no-agent`: no event of the open is a backend write, and data frames for the
channel are never relayed afterwards since it went straight to CLOSED. -/
theorem spawn_fail_no_agent (cfg : Config) (conn : Conn) (ch : Nat)
    (options : List (String × String)) (idn : Identity)
    (hch : ch ≠ 0) (hreg : chanLookup conn.channels ch = none)
    (hid : resolveIdentity cfg options = some idn)
    (htr : hostTrusted cfg (optLookup options "host-key") = true)
    (hauth : cfg.backendAccepts idn = true)
    (hspawn : cfg.spawnOk = false) :
    handleOpen cfg conn ch options =
      (⟨(ch, ⟨ChannelState.CLOSED, none⟩) :: conn.channels⟩,
       [Event.control (closeMsg ch "no-agent" [])]) ∧
    (∀ e ∈ (handleOpen cfg conn ch options).2, ∀ c b,
      e ≠ Event.toBackend c b) ∧
    (∀ q, routeFrame (handleOpen cfg conn ch options).1 (buildFrame ch q) =
      []) := by
  have h1 : handleOpen cfg conn ch options =
      (⟨(ch, ⟨ChannelState.CLOSED, none⟩) :: conn.channels⟩,
       [Event.control (closeMsg ch "no-agent" [])]) := by
    unfold handleOpen
    rw [if_neg (by simp [hch, hreg]), hid]
    simp [htr, hauth, hspawn]
  refine ⟨h1, ?_, ?_⟩
  · rw [h1]
    intro e he c b
    simp only [List.mem_singleton] at he
    subst he
    intro hcontra
    exact Event.noConfusion hcontra
  · intro q
    rw [h1, routeFrame, parseFrame_buildFrame]
    simp [hch, Conn.isOpen, Conn.chanState, chanLookup]

/-- Witness for C7: the failing agent spawn of `test_fail_spawn`. -/
theorem spawn_fail_no_agent_witness :
    handleOpen cfgSpawnFail connEmpty 4 [("payload", "test-text")] =
      (⟨(4, ⟨ChannelState.CLOSED, none⟩) :: connEmpty.channels⟩,
       [Event.control (closeMsg 4 "no-agent" [])]) ∧
    (∀ e ∈ (handleOpen cfgSpawnFail connEmpty 4 [("payload", "test-text")]).2,
      ∀ c b, e ≠ Event.toBackend c b) ∧
    (∀ q, routeFrame
      (handleOpen cfgSpawnFail connEmpty 4 [("payload", "test-text")]).1
      (buildFrame 4 q) = []) :=
  spawn_fail_no_agent cfgSpawnFail connEmpty 4 [("payload", "test-text")]
    ⟨"user", "this is the password"⟩ (by decide) rfl rfl rfl rfl rfl

/-- C8: abrupt termination of the backend of an OPEN channel emits a `close`
with reason `terminated` for that channel, moves only that channel to CLOSED,
leaves every other channel's state unchanged, and does not terminate the
connection. -/
theorem backend_terminated_close (conn : Conn) (ch : Nat)
    (hopen : conn.isOpen ch = true) :
    backendTerminated conn ch =
      (⟨setClosed conn.channels ch⟩,
       [Event.control (closeMsg ch "terminated" [])]) ∧
    (backendTerminated conn ch).1.chanState ch = some ChannelState.CLOSED ∧
    (∀ c, c ≠ ch → (backendTerminated conn ch).1.chanState c =
      conn.chanState c) ∧
    Event.fatal ∉ (backendTerminated conn ch).2 := by
  have h1 : backendTerminated conn ch =
      (⟨setClosed conn.channels ch⟩,
       [Event.control (closeMsg ch "terminated" [])]) := by
    unfold backendTerminated
    rw [if_pos hopen]
  have hlk : ∃ e, chanLookup conn.channels ch = some e := by
    have h2 := hopen
    unfold Conn.isOpen Conn.chanState at h2
    cases h : chanLookup conn.channels ch with
    | none => rw [h] at h2; simp at h2
    | some e => exact ⟨e, rfl⟩
  obtain ⟨e, he⟩ := hlk
  refine ⟨h1, ?_, ?_, ?_⟩
  · rw [h1]
    simp [Conn.chanState, chanLookup_setClosed_self conn.channels ch e he]
  · intro c hc
    rw [h1]
    simp [Conn.chanState, chanLookup_setClosed_ne conn.channels ch c hc]
  · rw [h1]
    simp

/-- Witness for C8: killing the backend of channel 4 while channel 7 is also
OPEN, as in `test_close_error`; channel 7 stays OPEN. -/
theorem backend_terminated_close_witness :
    (backendTerminated connTwo 4 =
      (⟨setClosed connTwo.channels 4⟩,
       [Event.control (closeMsg 4 "terminated" [])]) ∧
    (backendTerminated connTwo 4).1.chanState 4 = some ChannelState.CLOSED ∧
    (∀ c, c ≠ 4 → (backendTerminated connTwo 4).1.chanState c =
      connTwo.chanState c) ∧
    Event.fatal ∉ (backendTerminated connTwo 4).2) ∧
    connTwo.chanState 7 = some ChannelState.OPEN :=
  ⟨backend_terminated_close connTwo 4 (by decide), rfl⟩

/-- C10: when transport establishment succeeds end to end, the channel is
registered OPEN and the single emitted event is an `open` control message on
channel 0 for that channel carrying the channel's options verbatim; in
particular no close is observable first. -/
theorem open_reply_on_success (cfg : Config) (conn : Conn) (ch : Nat)
    (options : List (String × String)) (idn : Identity)
    (hch : ch ≠ 0) (hreg : chanLookup conn.channels ch = none)
    (hid : resolveIdentity cfg options = some idn)
    (htr : hostTrusted cfg (optLookup options "host-key") = true)
    (hauth : cfg.backendAccepts idn = true)
    (hspawn : cfg.spawnOk = true) :
    handleOpen cfg conn ch options =
      (⟨(ch, ⟨ChannelState.OPEN, some idn⟩) :: conn.channels⟩,
       [Event.control ⟨"open", some ch, options⟩]) ∧
    (handleOpen cfg conn ch options).1.chanState ch =
      some ChannelState.OPEN ∧
    (∀ msg, Event.control msg ∈ (handleOpen cfg conn ch options).2 →
      msg.command = "open" ∧ msg.channel = some ch ∧
        msg.options = options) := by
  have h1 : handleOpen cfg conn ch options =
      (⟨(ch, ⟨ChannelState.OPEN, some idn⟩) :: conn.channels⟩,
       [Event.control ⟨"open", some ch, options⟩]) := by
    unfold handleOpen
    rw [if_neg (by simp [hch, hreg]), hid]
    simp [htr, hauth, hspawn]
  refine ⟨h1, ?_, ?_⟩
  · rw [h1]
    simp [Conn.chanState, chanLookup]
  · rw [h1]
    intro msg hmsg
    simp only [List.mem_singleton, Event.control.injEq] at hmsg
    subst hmsg
    exact ⟨rfl, rfl, rfl⟩

/-- Witness for C10: the successful open of channel 4 with the `payload`
option answered by the `open` reply the tests expect. -/
theorem open_reply_on_success_witness :
    handleOpen cfgOk connEmpty 4 [("payload", "test-text")] =
      (⟨(4, ⟨ChannelState.OPEN, some ⟨"user", "this is the password"⟩⟩) ::
          connEmpty.channels⟩,
       [Event.control ⟨"open", some 4, [("payload", "test-text")]⟩]) ∧
    (handleOpen cfgOk connEmpty 4 [("payload", "test-text")]).1.chanState 4 =
      some ChannelState.OPEN ∧
    (∀ msg, Event.control msg ∈
        (handleOpen cfgOk connEmpty 4 [("payload", "test-text")]).2 →
      msg.command = "open" ∧ msg.channel = some 4 ∧
        msg.options = [("payload", "test-text")]) :=
  open_reply_on_success cfgOk connEmpty 4 [("payload", "test-text")]
    ⟨"user", "this is the password"⟩ (by decide) rfl rfl rfl rfl rfl
